import Mathlib

/-!
Verification development for `dags/utils/backfill.py`: two backfill
parameter records (`AirflowBackfillParams` and `BigQueryETLBackfillParams`)
with date-range / regex validation and command-token rendering.

Python exceptions are modelled by `Except PyError`; Python string/list/int
truthiness is made explicit at each use site, matching the source.
-/

deriving instance DecidableEq for Except

/-- Model of a Python exception value: the source raises `ValueError`
(with an f-string message) and the standard library raises `TypeError`
when `datetime.datetime.fromisoformat` receives `None`. -/
inductive PyError where
  | valueError (msg : String)
  | typeError (msg : String)
deriving DecidableEq, Repr

/-- Calendar date, the result of parsing an ISO-8601 date string.
Python `datetime` objects compare chronologically; for parsed dates
(month ≤ 12, day ≤ 31) the packed key below realises that order. -/
structure Date where
  year : Nat
  month : Nat
  day : Nat
deriving DecidableEq, Repr

/-- Packed comparison key: chronological order for in-range dates. -/
def Date.key (d : Date) : Nat := d.year * 512 + d.month * 32 + d.day

def isLeapYear (y : Nat) : Bool :=
  y % 4 == 0 && (y % 100 != 0 || y % 400 == 0)

def daysInMonth (y m : Nat) : Nat :=
  if m = 2 then (if isLeapYear y then 29 else 28)
  else if m = 4 ∨ m = 6 ∨ m = 9 ∨ m = 11 then 30
  else 31

def digitVal (c : Char) : Nat := c.toNat - 48

/-- Model of `datetime.datetime.fromisoformat` (Python standard library,
external to the repository), restricted to the date-only form
`YYYY-MM-DD`: exactly ten characters, all-digit fields, a real calendar
date with year ≥ 1. `none` models the `ValueError` raised on a string
that does not parse. -/
def fromisoformat (s : String) : Option Date :=
  match s.toList with
  | [y1, y2, y3, y4, '-', m1, m2, '-', d1, d2] =>
    if y1.isDigit && y2.isDigit && y3.isDigit && y4.isDigit &&
       m1.isDigit && m2.isDigit && d1.isDigit && d2.isDigit then
      let y := ((digitVal y1 * 10 + digitVal y2) * 10 + digitVal y3) * 10 + digitVal y4
      let m := digitVal m1 * 10 + digitVal m2
      let d := digitVal d1 * 10 + digitVal d2
      if 1 ≤ y && 1 ≤ m && m ≤ 12 && 1 ≤ d && d ≤ daysInMonth y m then
        some ⟨y, m, d⟩
      else none
    else none
  | _ => none

/-- `dataclass AirflowBackfillParams` (backfill.py). `task_regex` is
`str | None`, modelled as `Option String`. -/
structure AirflowBackfillParams where
  start_date : String
  end_date : String
  dag_name : String
  clear : Bool
  dry_run : Bool
  task_regex : Option String
deriving DecidableEq, Repr

/-- Python truthiness of a `str | None` value (`None` and `""` are falsy),
as tested by `if self.task_regex:` in the source. -/
def optStrTruthy : Option String → Bool
  | none => false
  | some s => !(s == "")

/-- `AirflowBackfillParams.validate_date_range`: parse both dates with
`fromisoformat` (a parse failure raises `ValueError`), then raise
`ValueError` when `start_date > end_date`. -/
def AirflowBackfillParams.validate_date_range
    (p : AirflowBackfillParams) : Except PyError Unit :=
  match fromisoformat p.start_date with
  | none => .error (.valueError ("Invalid isoformat string: " ++ p.start_date))
  | some sd =>
    match fromisoformat p.end_date with
    | none => .error (.valueError ("Invalid isoformat string: " ++ p.end_date))
    | some ed =>
      if ed.key < sd.key then
        .error (.valueError ("`start_date`=" ++ p.start_date ++
          " is greater than `end_date`=" ++ p.end_date))
      else .ok ()

/-- `AirflowBackfillParams.validate_regex_pattern`: no-op when
`task_regex` is falsy; otherwise `re.compile` it and, if that raises
`re.error`, raise `ValueError` (`from None`) whose message mentions only
the pattern. `compileRaises` abstracts the Python `re` compiler
(external library): `true` means `re.compile` raises `re.error`. -/
def AirflowBackfillParams.validate_regex_pattern
    (compileRaises : String → Bool) (p : AirflowBackfillParams) :
    Except PyError Unit :=
  if optStrTruthy p.task_regex then
    let r := p.task_regex.getD ""
    if compileRaises r then
      .error (.valueError ("Invalid regex pattern for `task_regex`=" ++ r))
    else .ok ()
  else .ok ()

/-- `AirflowBackfillParams.generate_backfill_command`, translated
statement by statement: start from `["airflow"]`; in the `clear` branch
extend with `["tasks","clear"]`, prepend `["timeout","60"]` on dry runs
or append `"-y"` otherwise, then append the `-t` filter when
`task_regex` is truthy; in the other branch extend with
`["dags","backfill","--donot-pickle"]`, append `"--dry-run"` on dry
runs, then the `-t` filter; finally extend with start/end flags and the
DAG name. -/
def AirflowBackfillParams.generate_backfill_command
    (p : AirflowBackfillParams) : List String :=
  let cmd := ["airflow"]
  let cmd :=
    if p.clear then
      let cmd := cmd ++ ["tasks", "clear"]
      let cmd :=
        if p.dry_run then ["timeout", "60"] ++ cmd
        else cmd ++ ["-y"]
      if optStrTruthy p.task_regex then
        cmd ++ ["-t", p.task_regex.getD ""]
      else cmd
    else
      let cmd := cmd ++ ["dags", "backfill", "--donot-pickle"]
      let cmd := if p.dry_run then cmd ++ ["--dry-run"] else cmd
      if optStrTruthy p.task_regex then
        cmd ++ ["-t", p.task_regex.getD ""]
      else cmd
  cmd ++ ["-s", p.start_date, "-e", p.end_date, p.dag_name]

/-- `dataclass BigQueryETLBackfillParams` (backfill.py). Optional fields
(`end_date : str | None`, `excludes : list[str] | None`,
`parallelism : int | None`) become `Option`s. -/
structure BigQueryETLBackfillParams where
  start_date : String
  destination_table : String
  dataset_id : String
  project_id : String
  dry_run : Bool
  no_partition : Bool
  end_date : Option String
  excludes : Option (List String)
  parallelism : Option Int
deriving DecidableEq, Repr

/-- `BigQueryETLBackfillParams.validate_date_range`: parse `start_date`
first, then `end_date`; `fromisoformat(None)` raises `TypeError` when
`end_date` is absent; raise `ValueError` when `start_date > end_date`. -/
def BigQueryETLBackfillParams.validate_date_range
    (p : BigQueryETLBackfillParams) : Except PyError Unit :=
  match fromisoformat p.start_date with
  | none => .error (.valueError ("Invalid isoformat string: " ++ p.start_date))
  | some sd =>
    match p.end_date with
    | none => .error (.typeError "fromisoformat: argument must be str")
    | some e =>
      match fromisoformat e with
      | none => .error (.valueError ("Invalid isoformat string: " ++ e))
      | some ed =>
        if ed.key < sd.key then
          .error (.valueError ("`start_date`=" ++ p.start_date ++
            " is greater than `end_date`=" ++ e))
        else .ok ()

/-- Python truthiness of `int | None` (`None` and `0` are falsy), as
tested by `if self.parallelism:` in the source. -/
def optIntTruthy : Option Int → Bool
  | none => false
  | some n => n != 0

/-- Python truthiness of `list[str] | None` (`None` and `[]` are falsy),
as tested by `if self.excludes:` in the source. -/
def optListTruthy : Option (List String) → Bool
  | none => false
  | some [] => false
  | some (_ :: _) => true

/-- `BigQueryETLBackfillParams.generate_backfill_command`, translated
statement by statement: the fixed prefix with the joined
`dataset_id.destination_table` token and the start-date flag, then the
conditional appends in source order (end date, excludes, dry run,
parallelism, no-partition), each guarded by Python truthiness. -/
def BigQueryETLBackfillParams.generate_backfill_command
    (p : BigQueryETLBackfillParams) : List String :=
  let cmd := ["script/bqetl", "query", "backfill",
    p.dataset_id ++ "." ++ p.destination_table,
    "--start-date=" ++ p.start_date]
  let cmd :=
    if optStrTruthy p.end_date then
      cmd ++ ["--end-date=" ++ p.end_date.getD ""]
    else cmd
  let cmd :=
    if optListTruthy p.excludes then
      cmd ++ ["--exclude=" ++ String.intercalate "," (p.excludes.getD [])]
    else cmd
  let cmd := if p.dry_run then cmd ++ ["--dry-run"] else cmd
  let cmd :=
    if optIntTruthy p.parallelism then
      cmd ++ ["--parallelism=" ++ toString (p.parallelism.getD 0)]
    else cmd
  let cmd := if p.no_partition then cmd ++ ["--no-partition"] else cmd
  cmd

/-- C1: with `clear = true` and `dry_run = true`, the rendered command is
`timeout 60` prepended to the whole airflow clear command, and the
scenario-1 instance renders to exactly the listed token sequence. -/
theorem clear_dry_run_prepends_timeout :
    (∀ p : AirflowBackfillParams, p.clear = true → p.dry_run = true →
      p.generate_backfill_command =
        ["timeout", "60", "airflow", "tasks", "clear"] ++
          (if optStrTruthy p.task_regex then ["-t", p.task_regex.getD ""] else []) ++
          ["-s", p.start_date, "-e", p.end_date, p.dag_name]) ∧
    (AirflowBackfillParams.mk "2023-01-01" "2023-01-02" "my_workflow" true true
        (some "load_.*")).generate_backfill_command =
      ["timeout", "60", "airflow", "tasks", "clear", "-t", "load_.*",
       "-s", "2023-01-01", "-e", "2023-01-02", "my_workflow"] := by
  constructor
  · intro p hc hd
    simp only [AirflowBackfillParams.generate_backfill_command, hc, hd, if_true]
    by_cases h : optStrTruthy p.task_regex <;> simp [h]
  · decide

/-- C1 witness: the general branch of `clear_dry_run_prepends_timeout`
applied at the scenario-1 instance. -/
theorem clear_dry_run_prepends_timeout_witness :
    (AirflowBackfillParams.mk "2023-01-01" "2023-01-02" "my_workflow" true true
        (some "load_.*")).clear = true ∧
    (AirflowBackfillParams.mk "2023-01-01" "2023-01-02" "my_workflow" true true
        (some "load_.*")).dry_run = true ∧
    (AirflowBackfillParams.mk "2023-01-01" "2023-01-02" "my_workflow" true true
        (some "load_.*")).generate_backfill_command =
      ["timeout", "60", "airflow", "tasks", "clear"] ++
        (if optStrTruthy (some "load_.*") then ["-t", (some "load_.*").getD ""] else []) ++
        ["-s", "2023-01-01", "-e", "2023-01-02", "my_workflow"] :=
  ⟨rfl, rfl, clear_dry_run_prepends_timeout.1 _ rfl rfl⟩

/-- C6: with `clear = true` and `dry_run = false`, the rendered command
appends `-y` right after the clear subcommand (and no timeout wrapper),
and the scenario-2 instance (equal dates, no filter) renders to exactly
the listed token sequence. -/
theorem clear_no_dry_run_appends_yes :
    (∀ p : AirflowBackfillParams, p.clear = true → p.dry_run = false →
      p.generate_backfill_command =
        ["airflow", "tasks", "clear", "-y"] ++
          (if optStrTruthy p.task_regex then ["-t", p.task_regex.getD ""] else []) ++
          ["-s", p.start_date, "-e", p.end_date, p.dag_name]) ∧
    (AirflowBackfillParams.mk "2023-01-01" "2023-01-01" "w" true false
        none).generate_backfill_command =
      ["airflow", "tasks", "clear", "-y", "-s", "2023-01-01", "-e", "2023-01-01", "w"] := by
  constructor
  · intro p hc hd
    simp only [AirflowBackfillParams.generate_backfill_command, hc, hd, if_true]
    by_cases h : optStrTruthy p.task_regex <;> simp [h]
  · decide

/-- C6 witness: the general branch of `clear_no_dry_run_appends_yes`
applied at the scenario-2 instance. -/
theorem clear_no_dry_run_appends_yes_witness :
    (AirflowBackfillParams.mk "2023-01-01" "2023-01-01" "w" true false
        none).clear = true ∧
    (AirflowBackfillParams.mk "2023-01-01" "2023-01-01" "w" true false
        none).dry_run = false ∧
    (AirflowBackfillParams.mk "2023-01-01" "2023-01-01" "w" true false
        none).generate_backfill_command =
      ["airflow", "tasks", "clear", "-y"] ++
        (if optStrTruthy none then ["-t", (none : Option String).getD ""] else []) ++
        ["-s", "2023-01-01", "-e", "2023-01-01", "w"] :=
  ⟨rfl, rfl, clear_no_dry_run_appends_yes.1 _ rfl rfl⟩

/-- C7: with `clear = false`, the rendered command is the
`dags backfill --donot-pickle` form with the conditional dry-run flag
and filter tokens; every rendered command (either branch) ends with
`-s start -e end dag_name`; and the scenario-3 instance renders to
exactly the listed token sequence. -/
theorem no_clear_backfill_command :
    (∀ p : AirflowBackfillParams, p.clear = false →
      p.generate_backfill_command =
        ["airflow", "dags", "backfill", "--donot-pickle"] ++
          (if p.dry_run then ["--dry-run"] else []) ++
          (if optStrTruthy p.task_regex then ["-t", p.task_regex.getD ""] else []) ++
          ["-s", p.start_date, "-e", p.end_date, p.dag_name]) ∧
    (∀ p : AirflowBackfillParams, ∃ front,
      p.generate_backfill_command =
        front ++ ["-s", p.start_date, "-e", p.end_date, p.dag_name]) ∧
    (AirflowBackfillParams.mk "2023-01-01" "2023-01-05" "w" false true
        none).generate_backfill_command =
      ["airflow", "dags", "backfill", "--donot-pickle", "--dry-run",
       "-s", "2023-01-01", "-e", "2023-01-05", "w"] := by
  refine ⟨?_, ?_, by decide⟩
  · intro p hc
    simp only [AirflowBackfillParams.generate_backfill_command, hc, if_false,
      Bool.false_eq_true]
    by_cases h : optStrTruthy p.task_regex <;>
      by_cases hd : p.dry_run <;> simp [h, hd]
  · intro p
    exact ⟨_, rfl⟩

/-- C7 witness: the `clear = false` branch of `no_clear_backfill_command`
applied at the scenario-3 instance. -/
theorem no_clear_backfill_command_witness :
    (AirflowBackfillParams.mk "2023-01-01" "2023-01-05" "w" false true
        none).clear = false ∧
    (AirflowBackfillParams.mk "2023-01-01" "2023-01-05" "w" false true
        none).generate_backfill_command =
      ["airflow", "dags", "backfill", "--donot-pickle"] ++
        (if true then ["--dry-run"] else []) ++
        (if optStrTruthy none then ["-t", (none : Option String).getD ""] else []) ++
        ["-s", "2023-01-01", "-e", "2023-01-05", "w"] :=
  ⟨rfl, no_clear_backfill_command.1 _ rfl⟩

/-- C2: the warehouse command is always the fixed prefix, the
`dataset.table` positional token, the start-date flag, then the
conditional segments in the fixed source order (end date, excludes,
dry run, parallelism, no-partition); the scenario-4 instance renders to
exactly the listed token sequence. -/
theorem bqetl_command_token_order :
    (∀ p : BigQueryETLBackfillParams,
      p.generate_backfill_command =
        ["script/bqetl", "query", "backfill",
         p.dataset_id ++ "." ++ p.destination_table,
         "--start-date=" ++ p.start_date] ++
        (if optStrTruthy p.end_date then ["--end-date=" ++ p.end_date.getD ""] else []) ++
        (if optListTruthy p.excludes then
          ["--exclude=" ++ String.intercalate "," (p.excludes.getD [])] else []) ++
        (if p.dry_run then ["--dry-run"] else []) ++
        (if optIntTruthy p.parallelism then
          ["--parallelism=" ++ toString (p.parallelism.getD 0)] else []) ++
        (if p.no_partition then ["--no-partition"] else [])) ∧
    (BigQueryETLBackfillParams.mk "2023-01-01" "events" "telemetry" "proj"
        false true (some "2023-01-31") (some ["a", "b"])
        (some 4)).generate_backfill_command =
      ["script/bqetl", "query", "backfill", "telemetry.events",
       "--start-date=2023-01-01", "--end-date=2023-01-31", "--exclude=a,b",
       "--parallelism=4", "--no-partition"] := by
  constructor
  · intro p
    simp only [BigQueryETLBackfillParams.generate_backfill_command]
    by_cases h1 : optStrTruthy p.end_date <;>
      by_cases h2 : optListTruthy p.excludes <;>
      by_cases h3 : p.dry_run <;>
      by_cases h4 : optIntTruthy p.parallelism <;>
      by_cases h5 : p.no_partition <;>
      simp [h1, h2, h3, h4, h5]
  · decide

/-- C3: whenever both date strings parse, `validate_date_range` (on both
record types; the warehouse one with `end_date` present) succeeds when
the parsed start is at most the parsed end and fails with the
start-after-end `ValueError` when the parsed start is strictly
greater. -/
theorem validate_date_range_iff_order :
    (∀ (p : AirflowBackfillParams) (sd ed : Date),
      fromisoformat p.start_date = some sd →
      fromisoformat p.end_date = some ed →
      (sd.key ≤ ed.key → p.validate_date_range = .ok ()) ∧
      (ed.key < sd.key → p.validate_date_range =
        .error (.valueError ("`start_date`=" ++ p.start_date ++
          " is greater than `end_date`=" ++ p.end_date)))) ∧
    (∀ (p : BigQueryETLBackfillParams) (e : String) (sd ed : Date),
      p.end_date = some e →
      fromisoformat p.start_date = some sd →
      fromisoformat e = some ed →
      (sd.key ≤ ed.key → p.validate_date_range = .ok ()) ∧
      (ed.key < sd.key → p.validate_date_range =
        .error (.valueError ("`start_date`=" ++ p.start_date ++
          " is greater than `end_date`=" ++ e)))) := by
  constructor
  · intro p sd ed hs he
    simp only [AirflowBackfillParams.validate_date_range, hs, he]
    constructor
    · intro h
      rw [if_neg (not_lt.mpr h)]
    · intro h
      rw [if_pos h]
  · intro p e sd ed hee hs he
    simp only [BigQueryETLBackfillParams.validate_date_range, hs, hee, he]
    constructor
    · intro h
      rw [if_neg (not_lt.mpr h)]
    · intro h
      rw [if_pos h]

/-- C3 witness: `validate_date_range_iff_order` at concrete instances:
an orchestrator request with 2023-01-01 ≤ 2023-01-02 succeeds, and a
warehouse request with 2023-02-01 > 2023-01-31 fails with the
start-after-end error. -/
theorem validate_date_range_iff_order_witness :
    (fromisoformat "2023-01-01" = some ⟨2023, 1, 1⟩ ∧
     fromisoformat "2023-01-02" = some ⟨2023, 1, 2⟩ ∧
     Date.key ⟨2023, 1, 1⟩ ≤ Date.key ⟨2023, 1, 2⟩ ∧
     (AirflowBackfillParams.mk "2023-01-01" "2023-01-02" "w" false false
        none).validate_date_range = .ok ()) ∧
    (fromisoformat "2023-02-01" = some ⟨2023, 2, 1⟩ ∧
     fromisoformat "2023-01-31" = some ⟨2023, 1, 31⟩ ∧
     Date.key ⟨2023, 1, 31⟩ < Date.key ⟨2023, 2, 1⟩ ∧
     (BigQueryETLBackfillParams.mk "2023-02-01" "t" "d" "pr" false false
        (some "2023-01-31") none none).validate_date_range =
      .error (.valueError
        "`start_date`=2023-02-01 is greater than `end_date`=2023-01-31")) :=
  ⟨⟨by decide, by decide, by decide,
    (validate_date_range_iff_order.1
      (AirflowBackfillParams.mk "2023-01-01" "2023-01-02" "w" false false none)
      ⟨2023, 1, 1⟩ ⟨2023, 1, 2⟩ (by decide) (by decide)).1 (by decide)⟩,
   ⟨by decide, by decide, by decide,
    (validate_date_range_iff_order.2
      (BigQueryETLBackfillParams.mk "2023-02-01" "t" "d" "pr" false false
        (some "2023-01-31") none none)
      "2023-01-31" ⟨2023, 2, 1⟩ ⟨2023, 1, 31⟩ rfl (by decide) (by decide)).2
      (by decide)⟩⟩

/-- C4 counterexample: a warehouse request with `end_date` absent but an
unparseable `start_date` fails with the start-date parse `ValueError`,
not with the missing-end-date `TypeError`: the source parses
`start_date` first, so the claimed error is not raised for every value
of `start_date`. -/
theorem bq_missing_end_date_counterexample :
    (BigQueryETLBackfillParams.mk "not-a-date" "t" "d" "pr" false false
      none none none).validate_date_range =
      .error (.valueError "Invalid isoformat string: not-a-date") ∧
    (BigQueryETLBackfillParams.mk "not-a-date" "t" "d" "pr" false false
      none none none).validate_date_range ≠
      .error (.typeError "fromisoformat: argument must be str") := by
  decide

/-- C4 (amended): with `end_date` absent, `validate_date_range` always
fails; when `start_date` parses as ISO-8601 the failure is the
missing-data `TypeError` from handing `None` to `fromisoformat`,
otherwise it is the start-date parse error. -/
theorem bq_missing_end_date_fails :
    ∀ p : BigQueryETLBackfillParams, p.end_date = none →
      (∃ err, p.validate_date_range = .error err) ∧
      (∀ sd : Date, fromisoformat p.start_date = some sd →
        p.validate_date_range =
          .error (.typeError "fromisoformat: argument must be str")) := by
  intro p he
  constructor
  · simp only [BigQueryETLBackfillParams.validate_date_range, he]
    cases h : fromisoformat p.start_date <;> simp
  · intro sd hs
    simp only [BigQueryETLBackfillParams.validate_date_range, hs, he]

/-- C4 witness: `bq_missing_end_date_fails` at a concrete request with a
valid start date and absent end date. -/
theorem bq_missing_end_date_fails_witness :
    (BigQueryETLBackfillParams.mk "2023-01-01" "t" "d" "pr" false false
      none none none).end_date = none ∧
    fromisoformat "2023-01-01" = some ⟨2023, 1, 1⟩ ∧
    (BigQueryETLBackfillParams.mk "2023-01-01" "t" "d" "pr" false false
      none none none).validate_date_range =
      .error (.typeError "fromisoformat: argument must be str") :=
  ⟨rfl, by decide,
    (bq_missing_end_date_fails
      (BigQueryETLBackfillParams.mk "2023-01-01" "t" "d" "pr" false false
        none none none) rfl).2 ⟨2023, 1, 1⟩ (by decide)⟩

/-- C5: `validate_regex_pattern` is a no-op when `task_regex` is absent
or empty; for a non-empty pattern it succeeds exactly when the compiler
accepts it, and on a compiler rejection it raises a `ValueError` whose
message mentions only the offending pattern — for any behaviour
`compileRaises` of the underlying compiler, the result never depends on
anything but the pattern itself and the accept/reject bit. -/
theorem validate_regex_pattern_spec :
    ∀ (compileRaises : String → Bool) (p : AirflowBackfillParams),
      ((p.task_regex = none ∨ p.task_regex = some "") →
        p.validate_regex_pattern compileRaises = .ok ()) ∧
      (∀ r : String, p.task_regex = some r → r ≠ "" →
        compileRaises r = true →
        p.validate_regex_pattern compileRaises =
          .error (.valueError ("Invalid regex pattern for `task_regex`=" ++ r))) ∧
      (∀ r : String, p.task_regex = some r → r ≠ "" →
        compileRaises r = false →
        p.validate_regex_pattern compileRaises = .ok ()) := by
  intro compileRaises p
  refine ⟨?_, ?_, ?_⟩
  · rintro (h | h) <;>
      simp [AirflowBackfillParams.validate_regex_pattern, optStrTruthy, h]
  · intro r hr hne hcr
    simp [AirflowBackfillParams.validate_regex_pattern, optStrTruthy, hr, hne, hcr]
  · intro r hr hne hcr
    simp [AirflowBackfillParams.validate_regex_pattern, optStrTruthy, hr, hne, hcr]

/-- C5 witness: `validate_regex_pattern_spec` at the scenario-6 pattern,
with a compiler that rejects it: the raised error names the pattern. -/
theorem validate_regex_pattern_spec_witness :
    (AirflowBackfillParams.mk "2023-01-01" "2023-01-02" "w" true false
      (some "[invalid(")).task_regex = some "[invalid(" ∧
    "[invalid(" ≠ "" ∧
    (fun _ : String => true) "[invalid(" = true ∧
    (AirflowBackfillParams.mk "2023-01-01" "2023-01-02" "w" true false
      (some "[invalid(")).validate_regex_pattern (fun _ => true) =
      .error (.valueError "Invalid regex pattern for `task_regex`=[invalid(") :=
  ⟨rfl, by decide, rfl,
    (validate_regex_pattern_spec (fun _ => true)
      (AirflowBackfillParams.mk "2023-01-01" "2023-01-02" "w" true false
        (some "[invalid("))).2.1 "[invalid(" rfl (by decide) rfl⟩

/-- C8: rendering is a pure total function of the record's field values
for both record types: rebuilding a record from its six (resp. nine)
fields and rendering again yields the identical token sequence, with no
error case in the result type and no mutation of any field. -/
theorem generate_backfill_command_deterministic :
    (∀ p : AirflowBackfillParams,
      AirflowBackfillParams.generate_backfill_command
        ⟨p.start_date, p.end_date, p.dag_name, p.clear, p.dry_run, p.task_regex⟩ =
        p.generate_backfill_command) ∧
    (∀ p : BigQueryETLBackfillParams,
      BigQueryETLBackfillParams.generate_backfill_command
        ⟨p.start_date, p.destination_table, p.dataset_id, p.project_id,
         p.dry_run, p.no_partition, p.end_date, p.excludes, p.parallelism⟩ =
        p.generate_backfill_command) :=
  ⟨fun _ => rfl, fun _ => rfl⟩

/-- C9: `project_id` never influences the warehouse command: replacing
it by any other string leaves the rendered token sequence unchanged. -/
theorem project_id_unused_in_command :
    ∀ (p : BigQueryETLBackfillParams) (pid : String),
      BigQueryETLBackfillParams.generate_backfill_command
        ⟨p.start_date, p.destination_table, p.dataset_id, pid,
         p.dry_run, p.no_partition, p.end_date, p.excludes, p.parallelism⟩ =
        p.generate_backfill_command := by
  intro p pid
  cases p
  rfl

/-- C10: an empty-string `task_regex` renders exactly like an absent
one, and in that case neither branch emits the `-t` flag or a filter
value: the command is just the branch prefix followed by the date flags
and the DAG name. -/
theorem empty_task_regex_like_none :
    ∀ p : AirflowBackfillParams, p.task_regex = some "" →
      p.generate_backfill_command =
        AirflowBackfillParams.generate_backfill_command
          ⟨p.start_date, p.end_date, p.dag_name, p.clear, p.dry_run, none⟩ ∧
      p.generate_backfill_command =
        (if p.clear then
          (if p.dry_run then ["timeout", "60", "airflow", "tasks", "clear"]
           else ["airflow", "tasks", "clear", "-y"])
         else
          ["airflow", "dags", "backfill", "--donot-pickle"] ++
            (if p.dry_run then ["--dry-run"] else [])) ++
        ["-s", p.start_date, "-e", p.end_date, p.dag_name] := by
  intro p h
  cases p with
  | mk sd ed dn cl dr tr =>
    cases h
    cases cl <;> cases dr <;>
      simp [AirflowBackfillParams.generate_backfill_command, optStrTruthy]

/-- C10 witness: `empty_task_regex_like_none` at a concrete request with
`task_regex = some ""`. -/
theorem empty_task_regex_like_none_witness :
    (AirflowBackfillParams.mk "2023-01-01" "2023-01-05" "w" false true
      (some "")).task_regex = some "" ∧
    (AirflowBackfillParams.mk "2023-01-01" "2023-01-05" "w" false true
      (some "")).generate_backfill_command =
      AirflowBackfillParams.generate_backfill_command
        ⟨"2023-01-01", "2023-01-05", "w", false, true, none⟩ :=
  ⟨rfl,
    (empty_task_regex_like_none
      (AirflowBackfillParams.mk "2023-01-01" "2023-01-05" "w" false true
        (some "")) rfl).1⟩
